import Mathlib

/-!
A shallow embedding of the order-processing path of the trading webhook
(`app.py`, handler `tradingview_webhook` and its helpers), together with
proofs about the embedded definitions.

Modelling conventions:
* JSON-optional fields become `Option` values.
* Python truthiness (`if not x`) is modelled by the `truthyS` / `truthyI` /
  `truthyQ` functions: `None`, the empty string, and the number `0` are falsy.
* Prices are modelled as exact rationals.
* Calls on the broker session (`ib.qualifyContracts`, `ib.positions`,
  `ib.openOrders`, `ib.placeOrder`, connect and disconnect) are recorded as an
  `Event` trace; the broker itself is a record of response functions.
* Exceptions raised by a broker call are modelled by `Except` results; the
  per-order `try/except` of the source becomes per-branch error results.
* Log messages keep the wording of the source, with quoting trimmed.
-/

/-- Mirror of the `ib_insync` contract objects used by `app.py`: both the
`Future(...)` and `Stock(...)` constructors produce an object carrying a
security type, `symbol`, `lastTradeDateOrContractMonth`, `exchange` and
`currency`. -/
structure Contract where
  secType : String
  symbol : String
  lastTradeDateOrContractMonth : String
  exchange : String
  currency : String
deriving DecidableEq, Repr

/-- `Future(symbol=ticker, lastTradeDateOrContractMonth=contract_month,
exchange='CFE', currency='USD')` (app.py lines 160-165). -/
def Future (symbol lastTradeDateOrContractMonth : String) : Contract :=
  ⟨"FUT", symbol, lastTradeDateOrContractMonth, "CFE", "USD"⟩

/-- `Stock(symbol.upper(), 'SMART', 'USD')` (app.py line 168); a stock has an
empty `lastTradeDateOrContractMonth`. -/
def Stock (symbol exchange currency : String) : Contract :=
  ⟨"STK", symbol, "", exchange, currency⟩

/-- `str.upper()`, written over the character list so that it reduces in the
kernel. -/
def upper (s : String) : String := ⟨s.data.map Char.toUpper⟩

/-- `str.split('-')` on the character list (structural recursion). -/
def splitOnDash : List Char → List (List Char)
  | [] => [[]]
  | c :: rest =>
    let r := splitOnDash rest
    if c = '-' then [] :: r
    else
      match r with
      | [] => [[c]]
      | h :: t => (c :: h) :: t

/-- `str.split('-')` returning strings. -/
def strSplitDash (s : String) : List String := (splitOnDash s.data).map (fun l => ⟨l⟩)

/-- Whether the first list is an initial segment of the second. -/
def leadsWith : List Char → List Char → Bool
  | [], _ => true
  | _ :: _, [] => false
  | a :: as, b :: bs => a == b && leadsWith as bs

/-- `str.startswith(p)`. -/
def strStartsWith (s p : String) : Bool := leadsWith p.data s.data

/-- The fixed month table of app.py lines 146-149. -/
def month_map (m : String) : Option String :=
  if m = "JAN" then some "01" else if m = "FEB" then some "02"
  else if m = "MAR" then some "03" else if m = "APR" then some "04"
  else if m = "MAY" then some "05" else if m = "JUN" then some "06"
  else if m = "JUL" then some "07" else if m = "AUG" then some "08"
  else if m = "SEP" then some "09" else if m = "OCT" then some "10"
  else if m = "NOV" then some "11" else if m = "DEC" then some "12"
  else none

/-- Symbol-to-contract resolution, app.py lines 132-168: a symbol whose
uppercasing starts with `VX` must split on `-` into exactly three parts
`TICKER-MONTH-YY` with a recognized month, and yields a future with
`contract_month = "20" ++ year_short ++ month_map MONTH`; anything else is a
stock on SMART/USD. -/
def parseContract (symbol : String) : Except String Contract :=
  let u := upper symbol
  if strStartsWith u "VX" then
    match strSplitDash u with
    | [ticker, month_name, year_short] =>
      match month_map (upper month_name) with
      | some mm => Except.ok (Future ticker ("20" ++ year_short ++ mm))
      | none => Except.error ("Invalid month in symbol: " ++ upper month_name)
    | _ =>
      Except.error ("Invalid VIX symbol format: " ++ symbol ++
        ". Use format like VX-Oct-25 or VXM-Oct-25")
  else
    Except.ok (Stock u "SMART" "USD")

/-- Python truthiness of an optional string: `None` and `""` are falsy. -/
def truthyS : Option String → Bool
  | none => false
  | some s => s != ""

/-- Python truthiness of an optional integer: `None` and `0` are falsy. -/
def truthyI : Option Int → Bool
  | none => false
  | some n => n != 0

/-- Python truthiness of an optional number: `None` and `0` are falsy. -/
def truthyQ : Option Rat → Bool
  | none => false
  | some q => q != 0

/-- One element of `ib.positions()`: a contract and a signed settled
quantity. -/
structure PositionRec where
  contract : Contract
  position : Int
deriving DecidableEq, Repr

/-- One element of `ib.openOrders()` as used by app.py: the trade carries a
contract, an order action, and a total quantity. -/
structure OpenOrderRec where
  contract : Contract
  action : String
  totalQuantity : Int
deriving DecidableEq, Repr

/-- The contract-matching test of app.py lines 187-188 and 197-198: equality
of `symbol` and `lastTradeDateOrContractMonth`. -/
def matchesKey (c qc : Contract) : Bool :=
  c.symbol == qc.symbol &&
    c.lastTradeDateOrContractMonth == qc.lastTradeDateOrContractMonth

/-- app.py lines 183-190: the settled position is the `position` of the first
matching entry of `ib.positions()`, default `0`. -/
def currentPosition (positions : List PositionRec) (qc : Contract) : Int :=
  match positions.find? (fun p => matchesKey p.contract qc) with
  | some p => p.position
  | none => 0

/-- app.py lines 193-203: sum `+totalQuantity` for each matching open BUY and
`-totalQuantity` for each matching open SELL. -/
def pendingDelta (openOrders : List OpenOrderRec) (qc : Contract) : Int :=
  openOrders.foldl
    (fun acc t =>
      if matchesKey t.contract qc then
        if t.action == "BUY" then acc + t.totalQuantity
        else if t.action == "SELL" then acc - t.totalQuantity
        else acc
      else acc)
    0

/-- The typed order requests produced by app.py lines 250-276
(`MarketOrder`, `LimitOrder`, `StopOrder`, `StopLimitOrder`). -/
inductive IBOrder where
  | MarketOrder (action : String) (totalQuantity : Int)
  | LimitOrder (action : String) (totalQuantity : Int) (lmtPrice : Rat)
  | StopOrder (action : String) (totalQuantity : Int) (auxPrice : Rat)
  | StopLimitOrder (action : String) (totalQuantity : Int) (lmtPrice auxPrice : Rat)
deriving DecidableEq, Repr

/-- The order-construction dispatch of app.py lines 250-282, applied after
`order_type = order_type.upper()`.  Note Python truthiness throughout:
`if not price` also fires on a price of `0`, and `aux_price or price` picks
`price` whenever `aux_price` is `None` or `0`. -/
def buildOrder (order_type : String) (action : String) (quantity : Int)
    (price aux_price : Option Rat) : Except String IBOrder :=
  if order_type ∈ (["MKT", "MARKET"] : List String) then
    Except.ok (IBOrder.MarketOrder action quantity)
  else if order_type ∈ (["LMT", "LIMIT"] : List String) then
    if !truthyQ price then Except.error "Price required for limit order"
    else Except.ok (IBOrder.LimitOrder action quantity (price.getD 0))
  else if order_type ∈ (["STP", "STOP"] : List String) then
    let stop_price := if truthyQ aux_price then aux_price else price
    if !truthyQ stop_price then Except.error "Stop price required for stop order"
    else Except.ok (IBOrder.StopOrder action quantity (stop_price.getD 0))
  else if order_type ∈ (["STP_LMT", "STOP_LIMIT"] : List String) then
    if !truthyQ price || !truthyQ aux_price then
      Except.error "Both limit price and stop price required for stop-limit order"
    else Except.ok (IBOrder.StopLimitOrder action quantity (price.getD 0) (aux_price.getD 0))
  else
    Except.error ("Unsupported order type: " ++ order_type ++
      ". Use MKT, LMT, STP, or STP_LMT")

/-- app.py line 107. -/
def valid_order_types : List String :=
  ["MKT", "MARKET", "LMT", "LIMIT", "STP", "STOP", "STP_LMT", "STOP_LIMIT"]

/-- app.py lines 106-110: an order type whose uppercasing is not recognized is
replaced by `"MKT"`; the Bool records whether `logger.warning` was invoked for
the replacement. -/
def validateOrderType (order_type : String) : String × Bool :=
  if upper order_type ∈ valid_order_types then (order_type, false)
  else ("MKT", true)

/-- The raw per-order JSON payload (`order_data` in app.py): every field is
optional. -/
structure OrderData where
  action : Option String := none
  symbol : Option String := none
  qty : Option Int := none
  order_type : Option String := none
  price : Option Rat := none
  aux_price : Option Rat := none
  position : Option Int := none
deriving DecidableEq, Repr

/-- The `details` dict of a result entry, for the fields the source fills in:
a skipped entry (app.py lines 217-224) and a success entry (app.py lines
298-314, restricted to the fields the properties below are about). -/
inductive Details where
  | skippedD (symbol : String) (current_position pending_position_change : Int)
      (effective_position target_position difference : Int)
  | successD (symbol : String) (action : String) (quantity : Int)
      (order_type : String) (order_status : String)
deriving DecidableEq, Repr

/-- One entry of the `results` list. -/
structure OrderResult where
  order : Nat
  status : String
  message : String
  details : Option Details := none
deriving DecidableEq, Repr

/-- An error entry as appended throughout the loop:
`{"order": i+1, "status": "error", "message": f"Order i+1: ..."}`. -/
def mkError (i : Nat) (msg : String) : OrderResult :=
  { order := i + 1, status := "error",
    message := "Order " ++ toString (i + 1) ++ ": " ++ msg }

/-- Broker-session interactions performed by the handler, in call order. -/
inductive Event where
  | connect
  | qualifyCall (c : Contract)
  | positionsCall
  | openOrdersCall
  | submit (c : Contract) (o : IBOrder)
  | disconnect
deriving DecidableEq, Repr

/-- The broker session as the handler consumes it.  `connectOk = false` models
`connect_to_ib()` exhausting its retries and raising; `qualify` returning
`none` models an empty `qualifyContracts` result; `placeOrder` returning
`Except.error` models an exception raised during submission, and on success it
returns the reported order status. -/
structure Broker where
  connectOk : Bool
  qualify : Contract → Option Contract
  positions : List PositionRec
  openOrders : List OpenOrderRec
  placeOrder : Contract → IBOrder → Except String String

/-- app.py lines 238-315: the tail of the loop body shared by the action/qty
path and the position path — validate that action and qty are available, build
the typed order, submit it, and report.  Returns the result entry and the
events emitted by this part. -/
def finishOrder (ib : Broker) (i : Nat) (s : String) (qc : Contract)
    (action : Option String) (qty : Option Int) (order_type : String)
    (price aux_price : Option Rat) : OrderResult × List Event :=
  if !truthyS action || !truthyI qty then
    (mkError i "Could not determine action/qty", [])
  else
    let quantity := qty.getD 0
    let act := upper (action.getD "")
    match buildOrder (upper order_type) act quantity price aux_price with
    | Except.error msg => (mkError i msg, [])
    | Except.ok o =>
      match ib.placeOrder qc o with
      | Except.error e =>
        ({ order := i + 1, status := "error",
           message := "Order " ++ toString (i + 1) ++ " error: " ++ e },
         [Event.submit qc o])
      | Except.ok st =>
        ({ order := i + 1, status := "success",
           message := "Order placed successfully",
           details := some (Details.successD s act quantity (upper order_type) st) },
         [Event.submit qc o])

/-- app.py lines 95-320: one iteration of the per-order loop, for the order at
zero-based index `i` (result entries are numbered `i+1`). -/
def processOrder (ib : Broker) (i : Nat) (od : OrderData) : OrderResult × List Event :=
  let order_type := (validateOrderType (od.order_type.getD "MKT")).1
  let cleared := od.position.isSome && (truthyS od.action || truthyI od.qty)
  let action := if cleared then none else od.action
  let qty := if cleared then none else od.qty
  match od.symbol with
  | none => (mkError i "Missing required field: symbol", [])
  | some s =>
    if s = "" then (mkError i "Missing required field: symbol", [])
    else if od.position.isNone && (!truthyS action || !truthyI qty) then
      (mkError i "Must provide either position OR both action and qty", [])
    else
      match parseContract s with
      | Except.error msg => (mkError i msg, [])
      | Except.ok contract =>
        match ib.qualify contract with
        | none =>
          (mkError i ("Could not find contract for symbol " ++ s),
           [Event.qualifyCall contract])
        | some qc =>
          match od.position with
          | some t =>
            let current := currentPosition ib.positions qc
            let pending := pendingDelta ib.openOrders qc
            let effective := current + pending
            let diff := t - effective
            if diff = 0 then
              ({ order := i + 1, status := "skipped",
                 message := "Already at target position " ++ toString t,
                 details := some (Details.skippedD s current pending effective t 0) },
               [Event.qualifyCall contract, Event.positionsCall, Event.openOrdersCall])
            else
              let act := if diff > 0 then "BUY" else "SELL"
              let p := finishOrder ib i s qc (some act) (some |diff|) order_type
                od.price od.aux_price
              (p.1,
               [Event.qualifyCall contract, Event.positionsCall, Event.openOrdersCall] ++ p.2)
          | none =>
            let p := finishOrder ib i s qc action qty order_type od.price od.aux_price
            (p.1, [Event.qualifyCall contract] ++ p.2)

/-- The whole per-order loop: result entries in input order, events
concatenated in execution order. -/
def processBatch (ib : Broker) : Nat → List OrderData → List OrderResult × List Event
  | _, [] => ([], [])
  | i, od :: rest =>
    let p := processOrder ib i od
    let q := processBatch ib (i + 1) rest
    (p.1 :: q.1, p.2 ++ q.2)

/-- `order_data.get("order_type", "MKT").upper()` as the conflict check at
app.py line 68 computes it. -/
def normType (od : OrderData) : String := upper (od.order_type.getD "MKT")

/-- Lookup in the model of the `contract_orders` dict (newest binding
first). -/
def lookupD (d : List (Option String × String)) (k : Option String) : Option String :=
  (d.find? (fun e => e.1 = k)).map (fun e => e.2)

/-- The eight allowed two-element type sets of app.py lines 74-77, as an
unordered-pair test on the two type strings. -/
def allowedCombo (a b : String) : Bool :=
  (a == "MKT" && b == "STP") || (a == "STP" && b == "MKT") ||
  (a == "MKT" && b == "STP_LMT") || (a == "STP_LMT" && b == "MKT") ||
  (a == "LMT" && b == "STP") || (a == "STP" && b == "LMT") ||
  (a == "LMT" && b == "STP_LMT") || (a == "STP_LMT" && b == "LMT") ||
  (a == "MARKET" && b == "STOP") || (a == "STOP" && b == "MARKET") ||
  (a == "MARKET" && b == "STOP_LIMIT") || (a == "STOP_LIMIT" && b == "MARKET") ||
  (a == "LIMIT" && b == "STOP") || (a == "STOP" && b == "LIMIT") ||
  (a == "LIMIT" && b == "STOP_LIMIT") || (a == "STOP_LIMIT" && b == "LIMIT")

/-- app.py lines 64-87: walk the batch keeping, per symbol, the order type of
its most recent occurrence; on a repeated symbol, demand that the pair
(previous type, current type) form an allowed combination, else return the
offending symbol and the two types. -/
def checkConflicts : List (Option String × String) → List OrderData →
    Option (Option String × String × String)
  | _, [] => none
  | d, od :: rest =>
    let sym := od.symbol
    let ot := normType od
    match lookupD d sym with
    | some existing =>
      if allowedCombo existing ot then checkConflicts ((sym, ot) :: d) rest
      else some (sym, existing, ot)
    | none => checkConflicts ((sym, ot) :: d) rest

/-- The conflict validation pass over the whole batch (app.py lines 64-87). -/
def validateConflicts (orders : List OrderData) : Option (Option String × String × String) :=
  checkConflicts [] orders

/-- The JSON response of the handler: `http` is the HTTP status code; the
batch counters and `results` are present only on the post-loop response of
app.py lines 328-335. -/
structure Response where
  status : String
  message : String := ""
  http : Nat
  total_orders : Option Nat := none
  successful_orders : Option Nat := none
  failed_orders : Option Nat := none
  results : Option (List OrderResult) := none
deriving DecidableEq, Repr

/-- app.py lines 49-349, the `/bgf` handler on a parsed `orders` array:
empty-batch check, conflict validation, connect, per-order loop, aggregate
response; a failed connection yields the 500 response of lines 337-340 and —
because `ib` is still `None` in the `finally` block — no disconnect call. -/
def tradingview_webhook (ib : Broker) (orders : List OrderData) : Response × List Event :=
  if orders.isEmpty then
    ({ status := "error", message := "Missing orders array", http := 400 }, [])
  else
    match validateConflicts orders with
    | some (sym, t1, t2) =>
      ({ status := "error",
         message := "Multiple orders for " ++ sym.getD "None" ++
           " with incompatible order types: " ++ t1 ++ " and " ++ t2 ++
           ". Only market/limit + stop combinations are allowed.",
         http := 400 }, [])
    | none =>
      if ib.connectOk then
        let pq := processBatch ib 0 orders
        let results := pq.1
        let successful := (results.filter (fun r => r.status == "success")).length
        let failed := results.length - successful
        ({ status := if successful > 0 then "success" else "error",
           message := "Processed " ++ toString results.length ++ " orders: " ++
             toString successful ++ " successful, " ++ toString failed ++ " failed",
           http := if successful > 0 then 200 else 400,
           total_orders := some results.length,
           successful_orders := some successful,
           failed_orders := some failed,
           results := some results },
         Event.connect :: pq.2 ++ [Event.disconnect])
      else
        ({ status := "error", message := "Trading connection error", http := 500 }, [])

deriving instance DecidableEq for Except

/-!  Specification-side definitions, used only to compare the code's behavior
against the spec's wording (conflict rule and symbol resolution). -/

/-- Spec-side: the canonical (long) name of an order type, identifying the
abbreviated and long spellings, per the spec's notion of normalized order
types `{MARKET, LIMIT, STOP, STOP_LIMIT}`. -/
def canonType (t : String) : String :=
  if t = "MKT" then "MARKET" else if t = "LMT" then "LIMIT"
  else if t = "STP" then "STOP" else if t = "STP_LMT" then "STOP_LIMIT"
  else t

/-- Spec-side: the set (as a deduplicated list) of canonical order types of
all instances of a symbol in a batch. -/
def symbolTypeSet (sym : Option String) (orders : List OrderData) : List String :=
  ((orders.filter (fun o => o.symbol == sym)).map (fun o => canonType (normType o))).dedup

/-- The successive uppercased order types of the orders bearing a given
symbol, in batch order (used to characterize the conflict check). -/
def occTypes (sym : Option String) (orders : List OrderData) : List String :=
  (orders.filter (fun o => o.symbol == sym)).map normType

/-- Spec-side: zero-padding of the year field to two digits, per the spec's
"`YY` is zero-padded and prefixed with `20`". -/
def zeroPad2 (y : String) : String :=
  if y.data.length = 1 then "0" ++ y else y

/-!  Concrete fixtures used by witnesses and counterexamples. -/

/-- A broker that qualifies every contract and accepts every order. -/
def brokerPlain : Broker :=
  { connectOk := true, qualify := fun c => some c, positions := [],
    openOrders := [], placeOrder := fun _ _ => Except.ok "Filled" }

/-- A broker on which qualification of the symbol `ZZZZ` returns no
contract. -/
def brokerNoZZZZ : Broker :=
  { connectOk := true, qualify := fun c => if c.symbol == "ZZZZ" then none else some c,
    positions := [], openOrders := [], placeOrder := fun _ _ => Except.ok "Filled" }

/-- A broker whose connection setup fails (connect retries exhausted). -/
def brokerDown : Broker :=
  { connectOk := false, qualify := fun c => some c, positions := [],
    openOrders := [], placeOrder := fun _ _ => Except.ok "Filled" }

/-- The October 2026 VX future, as resolution produces it. -/
def qcVX : Contract := Future "VX" "202610"

/-- A broker holding a settled position of 3 in `qcVX` with an open BUY of 2
on the same contract key. -/
def brokerVX : Broker :=
  { connectOk := true, qualify := fun c => some c,
    positions := [{ contract := qcVX, position := 3 }],
    openOrders := [{ contract := qcVX, action := "BUY", totalQuantity := 2 }],
    placeOrder := fun _ _ => Except.ok "Submitted" }

/-- Three orders on one symbol whose type chain MKT, STP, LMT is accepted by
the code although three distinct order types appear. -/
def ordersChain : List OrderData :=
  [{ symbol := some "AAPL", action := some "BUY", qty := some 1, order_type := some "MKT" },
   { symbol := some "AAPL", action := some "SELL", qty := some 1, order_type := some "STP",
     aux_price := some 5 },
   { symbol := some "AAPL", action := some "BUY", qty := some 1, order_type := some "LMT",
     price := some 6 }]

/-- A batch of three market orders whose second symbol fails qualification on
`brokerNoZZZZ`. -/
def ordersPartial : List OrderData :=
  [{ symbol := some "AAPL", action := some "BUY", qty := some 1 },
   { symbol := some "ZZZZ", action := some "BUY", qty := some 1 },
   { symbol := some "MSFT", action := some "BUY", qty := some 1 }]

/-- A single position-based order whose target is already met on
`brokerPlain` (settled 0, pending 0, target 0). -/
def ordersAllSkip : List OrderData :=
  [{ symbol := some "AAPL", position := some 0 }]

/-- A single position-based order against `brokerVX`: target 1 with settled 3
and pending +2. -/
def orderTarget1 : OrderData :=
  { symbol := some "VX-OCT-26", position := some 1, order_type := some "MKT" }

/-- A single action-based market order. -/
def orderPlainBuy : OrderData :=
  { symbol := some "AAPL", action := some "BUY", qty := some 1 }

/-- An action-based order with an unrecognized order type string. -/
def orderFooType : OrderData :=
  { symbol := some "AAPL", action := some "BUY", qty := some 1, order_type := some "FOO" }

/-- A single position-based order against `brokerVX` whose target 5 equals
settled 3 plus pending 2. -/
def orderTarget5 : OrderData :=
  { symbol := some "VX-OCT-26", position := some 5 }

/-- Two orders on one symbol whose pair of types MKT and LMT is not an allowed
combination. -/
def ordersConflictPair : List OrderData :=
  [{ symbol := some "AAPL", action := some "BUY", qty := some 1, order_type := some "MKT" },
   { symbol := some "AAPL", action := some "SELL", qty := some 1, order_type := some "LMT",
     price := some 5 }]

/-- Two orders on one symbol with a mix of abbreviated and long spellings
whose canonical types are MARKET and STOP. -/
def ordersMixedSpelling : List OrderData :=
  [{ symbol := some "AAPL", action := some "BUY", qty := some 1, order_type := some "MKT" },
   { symbol := some "AAPL", action := some "SELL", qty := some 1, order_type := some "STOP",
     aux_price := some 5 }]

/-!  Helper lemmas. -/

theorem finishOrder_fst_order (ib : Broker) (i : Nat) (s : String) (qc : Contract)
    (a : Option String) (q : Option Int) (ot : String) (p x : Option Rat) :
    (finishOrder ib i s qc a q ot p x).1.order = i + 1 := by
  unfold finishOrder
  split
  · rfl
  · dsimp only
    split
    · rfl
    · split <;> rfl

theorem processOrder_fst_order (ib : Broker) (i : Nat) (od : OrderData) :
    (processOrder ib i od).1.order = i + 1 := by
  unfold processOrder
  dsimp only
  repeat' split
  all_goals first
    | rfl
    | exact finishOrder_fst_order ..

theorem finishOrder_no_session (ib : Broker) (i : Nat) (s : String) (qc : Contract)
    (a : Option String) (q : Option Int) (ot : String) (p x : Option Rat) :
    ∀ e ∈ (finishOrder ib i s qc a q ot p x).2,
      e ≠ Event.connect ∧ e ≠ Event.disconnect := by
  unfold finishOrder
  dsimp only
  repeat' split
  all_goals intro e he
  all_goals dsimp only at he
  all_goals first
    | exact absurd he (List.not_mem_nil e)
    | (fin_cases he
       exact ⟨by simp, by simp⟩)

theorem ev0_no_session (c : Contract) :
    ∀ e ∈ [Event.qualifyCall c, Event.positionsCall, Event.openOrdersCall],
      e ≠ Event.connect ∧ e ≠ Event.disconnect := by
  intro e he
  simp only [List.mem_cons, List.not_mem_nil, or_false] at he
  rcases he with rfl | rfl | rfl <;> exact ⟨by simp, by simp⟩

theorem ev1_no_session (c : Contract) :
    ∀ e ∈ [Event.qualifyCall c], e ≠ Event.connect ∧ e ≠ Event.disconnect := by
  intro e he
  simp only [List.mem_cons, List.not_mem_nil, or_false] at he
  subst he
  exact ⟨by simp, by simp⟩

theorem processOrder_no_session (ib : Broker) (i : Nat) (od : OrderData) :
    ∀ e ∈ (processOrder ib i od).2,
      e ≠ Event.connect ∧ e ≠ Event.disconnect := by
  unfold processOrder
  dsimp only
  repeat' split
  all_goals intro e he
  all_goals dsimp only at he
  all_goals first
    | exact absurd he (List.not_mem_nil e)
    | exact ev0_no_session _ e he
    | exact ev1_no_session _ e he
    | (rcases List.mem_append.mp he with h | h
       · exact ev0_no_session _ e h
       · exact finishOrder_no_session _ _ _ _ _ _ _ _ _ e h)
    | (rcases List.mem_append.mp he with h | h
       · exact ev1_no_session _ e h
       · exact finishOrder_no_session _ _ _ _ _ _ _ _ _ e h)

theorem processBatch_fst_length (ib : Broker) :
    ∀ (l : List OrderData) (i : Nat), (processBatch ib i l).1.length = l.length := by
  intro l
  induction l with
  | nil => intro i; rfl
  | cons od rest ih =>
    intro i
    simp only [processBatch, List.length_cons]
    rw [ih]

theorem processBatch_map_order (ib : Broker) :
    ∀ (l : List OrderData) (i : Nat),
      (processBatch ib i l).1.map (fun r => r.order) = List.range' (i + 1) l.length := by
  intro l
  induction l with
  | nil => intro i; rfl
  | cons od rest ih =>
    intro i
    simp only [processBatch, List.length_cons, List.map_cons, List.range'_succ]
    rw [processOrder_fst_order, ih]

theorem processBatch_no_session (ib : Broker) :
    ∀ (l : List OrderData) (i : Nat),
      ∀ e ∈ (processBatch ib i l).2, e ≠ Event.connect ∧ e ≠ Event.disconnect := by
  intro l
  induction l with
  | nil => intro i e he; simp [processBatch] at he
  | cons od rest ih =>
    intro i e he
    simp only [processBatch, List.mem_append] at he
    rcases he with h | h
    · exact processOrder_no_session ib i od e h
    · exact ih (i + 1) e h

theorem lookupD_cons (k : Option String) (v : String)
    (d : List (Option String × String)) (sym : Option String) :
    lookupD ((k, v) :: d) sym = if k = sym then some v else lookupD d sym := by
  by_cases h : k = sym
  · simp [lookupD, List.find?_cons_of_pos, h]
  · simp [lookupD, List.find?_cons_of_neg, h]

theorem occTypes_cons (sym : Option String) (od : OrderData) (rest : List OrderData) :
    occTypes sym (od :: rest) =
      if od.symbol = sym then normType od :: occTypes sym rest
      else occTypes sym rest := by
  by_cases h : od.symbol = sym
  · simp [occTypes, List.filter_cons, h]
  · simp [occTypes, List.filter_cons, h]

theorem checkConflicts_none_iff (l : List OrderData) :
    ∀ d, checkConflicts d l = none ↔
      ∀ sym, List.Chain' (fun a b => allowedCombo a b = true)
        ((lookupD d sym).toList ++ occTypes sym l) := by
  induction l with
  | nil =>
    intro d
    constructor
    · intro _ sym
      cases h : lookupD d sym <;> simp [occTypes]
    · intro _
      rfl
  | cons od rest ih =>
    intro d
    cases h : lookupD d od.symbol with
    | none =>
      simp only [checkConflicts, h]
      rw [ih]
      apply forall_congr'
      intro sym
      rw [lookupD_cons, occTypes_cons]
      by_cases hs : od.symbol = sym
      · rw [if_pos hs, if_pos hs, ← hs, h]
        simp
      · rw [if_neg hs, if_neg hs]
    | some ex =>
      simp only [checkConflicts, h]
      by_cases ha : allowedCombo ex (normType od) = true
      · rw [if_pos ha, ih]
        apply forall_congr'
        intro sym
        rw [lookupD_cons, occTypes_cons]
        by_cases hs : od.symbol = sym
        · rw [if_pos hs, if_pos hs, ← hs, h]
          simp [List.chain'_cons, ha]
        · rw [if_neg hs, if_neg hs]
      · rw [if_neg ha]
        constructor
        · intro hcontra
          exact Option.noConfusion hcontra
        · intro H
          exfalso
          have hh := H od.symbol
          rw [h, occTypes_cons, if_pos rfl] at hh
          simp only [Option.toList_some, List.singleton_append] at hh
          rw [List.chain'_cons] at hh
          exact ha hh.1

theorem validateConflicts_none_iff (orders : List OrderData) :
    validateConflicts orders = none ↔
      ∀ sym, List.Chain' (fun a b => allowedCombo a b = true) (occTypes sym orders) := by
  unfold validateConflicts
  rw [checkConflicts_none_iff]
  apply forall_congr'
  intro sym
  rw [show lookupD [] sym = none from rfl]
  simp

theorem validateConflicts_nonempty (orders : List OrderData) (r : Option String × String × String)
    (h : validateConflicts orders = some r) : orders.isEmpty = false := by
  cases orders with
  | nil => exact Option.noConfusion h
  | cons od rest => rfl

theorem webhook_conflict_rejects (ib : Broker) (orders : List OrderData)
    (sym : Option String) (t1 t2 : String)
    (h : validateConflicts orders = some (sym, t1, t2)) :
    tradingview_webhook ib orders =
      ({ status := "error",
         message := "Multiple orders for " ++ sym.getD "None" ++
           " with incompatible order types: " ++ t1 ++ " and " ++ t2 ++
           ". Only market/limit + stop combinations are allowed.",
         http := 400 }, []) := by
  unfold tradingview_webhook
  rw [validateConflicts_nonempty orders (sym, t1, t2) h, h]
  rfl

theorem webhook_ok_eq (ib : Broker) (orders : List OrderData)
    (hne : orders.isEmpty = false) (hvc : validateConflicts orders = none)
    (hconn : ib.connectOk = true) :
    tradingview_webhook ib orders =
      ({ status :=
           if ((processBatch ib 0 orders).1.filter (fun r => r.status == "success")).length > 0
           then "success" else "error",
         message := "Processed " ++ toString (processBatch ib 0 orders).1.length ++
           " orders: " ++
           toString ((processBatch ib 0 orders).1.filter (fun r => r.status == "success")).length ++
           " successful, " ++
           toString ((processBatch ib 0 orders).1.length -
             ((processBatch ib 0 orders).1.filter (fun r => r.status == "success")).length) ++
           " failed",
         http :=
           if ((processBatch ib 0 orders).1.filter (fun r => r.status == "success")).length > 0
           then 200 else 400,
         total_orders := some (processBatch ib 0 orders).1.length,
         successful_orders :=
           some ((processBatch ib 0 orders).1.filter (fun r => r.status == "success")).length,
         failed_orders :=
           some ((processBatch ib 0 orders).1.length -
             ((processBatch ib 0 orders).1.filter (fun r => r.status == "success")).length),
         results := some (processBatch ib 0 orders).1 },
       Event.connect :: (processBatch ib 0 orders).2 ++ [Event.disconnect]) := by
  unfold tradingview_webhook
  rw [hne, hvc, hconn]
  rfl

theorem processOrder_position_path (ib : Broker) (i : Nat) (od : OrderData)
    (s : String) (c qc : Contract) (t : Int)
    (hs : od.symbol = some s) (hne : ¬ s = "")
    (ht : od.position = some t)
    (hp : parseContract s = Except.ok c)
    (hq : ib.qualify c = some qc) :
    processOrder ib i od =
      (if t - (currentPosition ib.positions qc + pendingDelta ib.openOrders qc) = 0 then
        ({ order := i + 1, status := "skipped",
           message := "Already at target position " ++ toString t,
           details := some (Details.skippedD s (currentPosition ib.positions qc)
             (pendingDelta ib.openOrders qc)
             (currentPosition ib.positions qc + pendingDelta ib.openOrders qc) t 0) },
         [Event.qualifyCall c, Event.positionsCall, Event.openOrdersCall])
      else
        ((finishOrder ib i s qc
            (some (if t - (currentPosition ib.positions qc + pendingDelta ib.openOrders qc) > 0
                   then "BUY" else "SELL"))
            (some |t - (currentPosition ib.positions qc + pendingDelta ib.openOrders qc)|)
            (validateOrderType (od.order_type.getD "MKT")).1 od.price od.aux_price).1,
         [Event.qualifyCall c, Event.positionsCall, Event.openOrdersCall] ++
           (finishOrder ib i s qc
             (some (if t - (currentPosition ib.positions qc + pendingDelta ib.openOrders qc) > 0
                    then "BUY" else "SELL"))
             (some |t - (currentPosition ib.positions qc + pendingDelta ib.openOrders qc)|)
             (validateOrderType (od.order_type.getD "MKT")).1 od.price od.aux_price).2)) := by
  unfold processOrder
  rw [hs]
  dsimp only
  rw [if_neg hne, ht]
  simp only [Option.isNone_some, Option.isSome_some, Bool.false_and, Bool.true_and,
    Bool.false_eq_true, if_false]
  rw [hp]
  dsimp only
  rw [hq]

theorem finishOrder_market (ib : Broker) (i : Nat) (s : String) (qc : Contract)
    (act : String) (q : Int) (p x : Option Rat) (st : String)
    (hact : act = "BUY" ∨ act = "SELL") (hq : q ≠ 0)
    (hst : ib.placeOrder qc (IBOrder.MarketOrder (upper act) q) = Except.ok st) :
    finishOrder ib i s qc (some act) (some q) "MKT" p x =
      ({ order := i + 1, status := "success", message := "Order placed successfully",
         details := some (Details.successD s (upper act) q "MKT" st) },
       [Event.submit qc (IBOrder.MarketOrder (upper act) q)]) := by
  unfold finishOrder
  have h1 : truthyS (some act) = true := by rcases hact with rfl | rfl <;> rfl
  have h2 : truthyI (some q) = true := by simp [truthyI, hq]
  rw [h1, h2]
  rw [if_neg (by simp : ¬ ((!true || !true) = true))]
  dsimp only [Option.getD_some]
  rw [show buildOrder (upper "MKT") (upper act) q p x =
        Except.ok (IBOrder.MarketOrder (upper act) q) from rfl]
  dsimp only
  rw [hst]
  rfl

/-!  Claim theorems. -/

/-- C3 (amended): for every symbol whose uppercasing starts with the
derivative-ticker prefix `VX` and splits on hyphens into exactly three fields
`TICKER-MONTH-YY` with a recognized month, the resolver produces a FUTURE
contract with `rootSymbol = TICKER` and
`expiry = "20" ++ YY ++ month code`, the year field taken verbatim (the code
does not zero-pad a short year); any symbol not starting with the prefix
resolves to an EQUITY contract with default exchange SMART and currency
USD. -/
theorem C3_symbol_resolution :
    (∀ s t m y mm : String,
      strStartsWith (upper s) "VX" = true →
      strSplitDash (upper s) = [t, m, y] →
      month_map (upper m) = some mm →
      parseContract s = Except.ok (Future t ("20" ++ y ++ mm))) ∧
    (∀ s : String, strStartsWith (upper s) "VX" = false →
      parseContract s = Except.ok (Stock (upper s) "SMART" "USD")) := by
  constructor
  · intro s t m y mm h1 h2 h3
    unfold parseContract
    dsimp only
    rw [h1, if_pos rfl, h2]
    dsimp only
    rw [h3]
  · intro s h
    unfold parseContract
    dsimp only
    rw [h, if_neg (show ¬ (false = true) by simp)]

/-- C3 witness: the amended theorem applied to the spec's own example
`VXM-OCT-26` (in lowercase to exercise case-insensitivity) and to an equity
symbol. -/
theorem C3_symbol_resolution_witness :
    parseContract "vxm-oct-26" = Except.ok (Future "VXM" "202610") ∧
    parseContract "AAPL" = Except.ok (Stock "AAPL" "SMART" "USD") :=
  ⟨C3_symbol_resolution.1 "vxm-oct-26" "VXM" "OCT" "26" "10"
      (by decide) (by decide) (by decide),
   C3_symbol_resolution.2 "AAPL" (by decide)⟩

/-- C3 counterexample: the claim says the year field is zero-padded before
being prefixed with `20`, which would give expiry `200510` for the symbol
`VX-OCT-5`; the code concatenates the year verbatim and yields `20510`. -/
theorem C3_counterexample_no_zero_padding :
    parseContract "VX-OCT-5" = Except.ok (Future "VX" "20510") ∧
    "20" ++ zeroPad2 "5" ++ "10" = "200510" ∧
    parseContract "VX-OCT-5" ≠ Except.ok (Future "VX" ("20" ++ zeroPad2 "5" ++ "10")) := by
  refine ⟨by decide, by decide, by decide⟩

/-- C5: in a batch of three orders where the second symbol fails broker
qualification, that failure is isolated into order 2's error result and
processing continues: the response reports 2 successful and 1 failed order,
HTTP status 200, and the per-order statuses are success, error, success in
input order. -/
theorem C5_partial_failure_isolated :
    (tradingview_webhook brokerNoZZZZ ordersPartial).1.successful_orders = some 2 ∧
    (tradingview_webhook brokerNoZZZZ ordersPartial).1.failed_orders = some 1 ∧
    (tradingview_webhook brokerNoZZZZ ordersPartial).1.http = 200 ∧
    ((tradingview_webhook brokerNoZZZZ ordersPartial).1.results.getD []).map
      (fun r => r.status) = ["success", "error", "success"] := by decide

/-- C2 (amended): the conflict check is pairwise on consecutive occurrences of
a symbol: a batch passes iff, for every symbol, each adjacent pair in its
sequence of uppercased order types forms one of the eight literal sets
listed in the code (abbreviated and long spellings do not mix); when the check
fails it returns a 400 validation error naming the symbol and the two types,
before any broker call and with no orders submitted. -/
theorem C2_conflict_check_consecutive_pairs :
    (∀ orders : List OrderData,
      validateConflicts orders = none ↔
        ∀ sym : Option String,
          List.Chain' (fun a b => allowedCombo a b = true) (occTypes sym orders)) ∧
    (∀ (ib : Broker) (orders : List OrderData) (sym : Option String) (t1 t2 : String),
      validateConflicts orders = some (sym, t1, t2) →
        tradingview_webhook ib orders =
          ({ status := "error",
             message := "Multiple orders for " ++ sym.getD "None" ++
               " with incompatible order types: " ++ t1 ++ " and " ++ t2 ++
               ". Only market/limit + stop combinations are allowed.",
             http := 400 }, [])) :=
  ⟨validateConflicts_none_iff, webhook_conflict_rejects⟩

/-- C2 witness: two orders on one symbol with types MKT and LMT are rejected
with a 400 response and an empty event trace (no broker call, nothing
submitted). -/
theorem C2_conflict_check_consecutive_pairs_witness :
    tradingview_webhook brokerPlain ordersConflictPair =
      ({ status := "error",
         message := "Multiple orders for AAPL with incompatible order types: MKT and LMT. Only market/limit + stop combinations are allowed.",
         http := 400 }, []) :=
  C2_conflict_check_consecutive_pairs.2 brokerPlain ordersConflictPair
    (some "AAPL") "MKT" "LMT" (by decide)

/-- C2 counterexample: `ordersChain` repeats one symbol with three distinct
normalized order types (MARKET, STOP, LIMIT); the claim says such a batch is
rejected with a 400 validation error, no broker call and no orders submitted,
but the code accepts it (the pairwise check only ever compares with the
previous occurrence), processes the batch with HTTP 200, and submits all
three orders. -/
theorem C2_counterexample_three_types_accepted :
    (ordersChain.filter (fun o => o.symbol == some "AAPL")).length = 3 ∧
    symbolTypeSet (some "AAPL") ordersChain = ["MARKET", "STOP", "LIMIT"] ∧
    validateConflicts ordersChain = none ∧
    (tradingview_webhook brokerPlain ordersChain).1.http = 200 ∧
    ((tradingview_webhook brokerPlain ordersChain).2.countP
      (fun e => match e with | Event.submit _ _ => true | _ => false)) = 3 := by
  refine ⟨by decide, by decide, by decide, by decide, by decide⟩

/-- C1: for every position-based market order whose symbol resolves and
qualifies, with delta = target - (settled + pending delta over the exactly
matching contract key) nonzero, the engine submits a market order with
action BUY if delta > 0 else SELL and quantity abs(delta), and reports
success. -/
theorem C1_position_reconciliation (ib : Broker) (i : Nat) (od : OrderData)
    (s : String) (c qc : Contract) (t : Int) (st : String)
    (hs : od.symbol = some s) (hne : ¬ s = "")
    (ht : od.position = some t)
    (hot : od.order_type = some "MKT")
    (hp : parseContract s = Except.ok c)
    (hq : ib.qualify c = some qc)
    (hsub : ∀ o, ib.placeOrder qc o = Except.ok st)
    (hd : t - (currentPosition ib.positions qc + pendingDelta ib.openOrders qc) ≠ 0) :
    (processOrder ib i od).1.status = "success" ∧
    (processOrder ib i od).2 =
      [Event.qualifyCall c, Event.positionsCall, Event.openOrdersCall,
       Event.submit qc (IBOrder.MarketOrder
         (if t - (currentPosition ib.positions qc + pendingDelta ib.openOrders qc) > 0
          then "BUY" else "SELL")
         |t - (currentPosition ib.positions qc + pendingDelta ib.openOrders qc)|)] := by
  have hpp := processOrder_position_path ib i od s c qc t hs hne ht hp hq
  rw [if_neg hd] at hpp
  rw [hot] at hpp
  rw [show (validateOrderType ((some "MKT").getD "MKT")).1 = "MKT" from rfl] at hpp
  by_cases hpos : t - (currentPosition ib.positions qc + pendingDelta ib.openOrders qc) > 0
  · rw [if_pos hpos] at hpp ⊢
    rw [finishOrder_market ib i s qc "BUY"
      |t - (currentPosition ib.positions qc + pendingDelta ib.openOrders qc)|
      od.price od.aux_price st (Or.inl rfl) (abs_ne_zero.mpr hd) (hsub _)] at hpp
    rw [hpp]
    exact ⟨rfl, rfl⟩
  · rw [if_neg hpos] at hpp ⊢
    rw [finishOrder_market ib i s qc "SELL"
      |t - (currentPosition ib.positions qc + pendingDelta ib.openOrders qc)|
      od.price od.aux_price st (Or.inr rfl) (abs_ne_zero.mpr hd) (hsub _)] at hpp
    rw [hpp]
    exact ⟨rfl, rfl⟩

/-- C1 witness: the spec's worked example — settled 3, pending open BUY 2,
target 1 — submits a market SELL of 4 on the qualified contract. -/
theorem C1_position_reconciliation_witness :
    (processOrder brokerVX 0 orderTarget1).1.status = "success" ∧
    (processOrder brokerVX 0 orderTarget1).2 =
      [Event.qualifyCall qcVX, Event.positionsCall, Event.openOrdersCall,
       Event.submit qcVX (IBOrder.MarketOrder "SELL" 4)] :=
  C1_position_reconciliation brokerVX 0 orderTarget1 "VX-OCT-26" qcVX qcVX 1
    "Submitted" rfl (by decide) rfl rfl (by decide) rfl (fun _ => rfl) (by decide)

/-- C4: for every position-based order whose symbol resolves and qualifies
and whose target equals the effective position (settled + pending), the
result is a skipped entry carrying the settled, pending, effective and target
values with difference 0, and no event beyond the three snapshot calls is
emitted — in particular nothing is submitted, so re-running the same webhook
against unchanged broker state yields the same skipped result. -/
theorem C4_skip_when_target_met (ib : Broker) (i : Nat) (od : OrderData)
    (s : String) (c qc : Contract) (t : Int)
    (hs : od.symbol = some s) (hne : ¬ s = "")
    (ht : od.position = some t)
    (hp : parseContract s = Except.ok c)
    (hq : ib.qualify c = some qc)
    (heff : t = currentPosition ib.positions qc + pendingDelta ib.openOrders qc) :
    processOrder ib i od =
      ({ order := i + 1, status := "skipped",
         message := "Already at target position " ++ toString t,
         details := some (Details.skippedD s (currentPosition ib.positions qc)
           (pendingDelta ib.openOrders qc)
           (currentPosition ib.positions qc + pendingDelta ib.openOrders qc) t 0) },
       [Event.qualifyCall c, Event.positionsCall, Event.openOrdersCall]) := by
  have hpp := processOrder_position_path ib i od s c qc t hs hne ht hp hq
  rw [if_pos (by omega :
    t - (currentPosition ib.positions qc + pendingDelta ib.openOrders qc) = 0)] at hpp
  exact hpp

/-- C4 witness: settled 3 and pending +2 with target 5 yields the skipped
result carrying (3, 2, 5, 5, 0) and no submission. -/
theorem C4_skip_when_target_met_witness :
    processOrder brokerVX 0 orderTarget5 =
      ({ order := 1, status := "skipped",
         message := "Already at target position 5",
         details := some (Details.skippedD "VX-OCT-26" 3 2 5 5 0) },
       [Event.qualifyCall qcVX, Event.positionsCall, Event.openOrdersCall]) :=
  C4_skip_when_target_met brokerVX 0 orderTarget5 "VX-OCT-26" qcVX qcVX 5
    rfl (by decide) rfl (by decide) rfl (by decide)

/-- C7 (amended): the Order Builder validates required fields under Python
truthiness, where an absent field and a zero value are falsy alike: MARKET
needs only action and quantity; LIMIT errors when price is falsy and uses the
price otherwise; STOP uses a non-zero aux_price as trigger, falls back to
price when aux_price is falsy, and errors exactly when both are falsy;
STOP_LIMIT errors when either price or aux_price is falsy and uses both
otherwise. -/
theorem C7_order_builder_required_fields :
    (∀ (a : String) (q : Int) (p x : Option Rat),
      buildOrder "MKT" a q p x = Except.ok (IBOrder.MarketOrder a q)) ∧
    (∀ (a : String) (q : Int) (p x : Option Rat), truthyQ p = false →
      buildOrder "LMT" a q p x = Except.error "Price required for limit order") ∧
    (∀ (a : String) (q : Int) (x : Option Rat) (v : Rat), v ≠ 0 →
      buildOrder "LMT" a q (some v) x = Except.ok (IBOrder.LimitOrder a q v)) ∧
    (∀ (a : String) (q : Int) (p : Option Rat) (v : Rat), v ≠ 0 →
      buildOrder "STP" a q p (some v) = Except.ok (IBOrder.StopOrder a q v)) ∧
    (∀ (a : String) (q : Int) (x : Option Rat) (v : Rat), truthyQ x = false → v ≠ 0 →
      buildOrder "STP" a q (some v) x = Except.ok (IBOrder.StopOrder a q v)) ∧
    (∀ (a : String) (q : Int) (p x : Option Rat), truthyQ p = false → truthyQ x = false →
      buildOrder "STP" a q p x = Except.error "Stop price required for stop order") ∧
    (∀ (a : String) (q : Int) (p x : Option Rat), truthyQ p = false ∨ truthyQ x = false →
      buildOrder "STP_LMT" a q p x =
        Except.error "Both limit price and stop price required for stop-limit order") ∧
    (∀ (a : String) (q : Int) (v w : Rat), v ≠ 0 → w ≠ 0 →
      buildOrder "STP_LMT" a q (some v) (some w) =
        Except.ok (IBOrder.StopLimitOrder a q v w)) := by
  refine ⟨fun a q p x => rfl, ?_, ?_, ?_, ?_, ?_, ?_, ?_⟩
  · intro a q p x hp
    have h : buildOrder "LMT" a q p x =
        if (!truthyQ p) = true then Except.error "Price required for limit order"
        else Except.ok (IBOrder.LimitOrder a q (p.getD 0)) := rfl
    rw [h, hp]
    rfl
  · intro a q x v hv
    have h : buildOrder "LMT" a q (some v) x =
        if (!truthyQ (some v)) = true then Except.error "Price required for limit order"
        else Except.ok (IBOrder.LimitOrder a q ((some v).getD 0)) := rfl
    have hv' : truthyQ (some v) = true := by simp [truthyQ, hv]
    rw [h, hv']
    rfl
  · intro a q p v hv
    have h : buildOrder "STP" a q p (some v) =
        (if (!truthyQ (if truthyQ (some v) = true then some v else p)) = true
         then Except.error "Stop price required for stop order"
         else Except.ok (IBOrder.StopOrder a q
           ((if truthyQ (some v) = true then some v else p).getD 0))) := rfl
    have hv' : truthyQ (some v) = true := by simp [truthyQ, hv]
    rw [h, hv', if_pos rfl, hv']
    rfl
  · intro a q x v hx hv
    have h : buildOrder "STP" a q (some v) x =
        (if (!truthyQ (if truthyQ x = true then x else some v)) = true
         then Except.error "Stop price required for stop order"
         else Except.ok (IBOrder.StopOrder a q
           ((if truthyQ x = true then x else some v).getD 0))) := rfl
    have hv' : truthyQ (some v) = true := by simp [truthyQ, hv]
    rw [h, hx]
    simp only [Bool.false_eq_true, if_false, hv']
    rfl
  · intro a q p x hp hx
    have h : buildOrder "STP" a q p x =
        (if (!truthyQ (if truthyQ x = true then x else p)) = true
         then Except.error "Stop price required for stop order"
         else Except.ok (IBOrder.StopOrder a q
           ((if truthyQ x = true then x else p).getD 0))) := rfl
    rw [h, hx]
    simp only [Bool.false_eq_true, if_false, hp]
    rfl
  · intro a q p x hpx
    have h : buildOrder "STP_LMT" a q p x =
        (if (!truthyQ p || !truthyQ x) = true
         then Except.error "Both limit price and stop price required for stop-limit order"
         else Except.ok (IBOrder.StopLimitOrder a q (p.getD 0) (x.getD 0))) := rfl
    rcases hpx with hp | hx
    · rw [h, hp]
      rfl
    · rw [h, hx]
      simp
  · intro a q v w hv hw
    have h : buildOrder "STP_LMT" a q (some v) (some w) =
        (if (!truthyQ (some v) || !truthyQ (some w)) = true
         then Except.error "Both limit price and stop price required for stop-limit order"
         else Except.ok (IBOrder.StopLimitOrder a q ((some v).getD 0) ((some w).getD 0))) := rfl
    have hv' : truthyQ (some v) = true := by simp [truthyQ, hv]
    have hw' : truthyQ (some w) = true := by simp [truthyQ, hw]
    rw [h, hv', hw']
    rfl

/-- C7 witness: a STOP order with only aux_price 5 set is accepted, using 5
as the trigger. -/
theorem C7_order_builder_required_fields_witness :
    buildOrder "STP" "BUY" 1 none (some 5) = Except.ok (IBOrder.StopOrder "BUY" 1 5) :=
  C7_order_builder_required_fields.2.2.2.1 "BUY" 1 none 5 (by norm_num)

/-- C7 counterexample: a STOP order whose price and aux_price are both
present but equal to 0 is rejected with the missing-stop-price error, though
the claim says a stop order fails only when both fields are absent. -/
theorem C7_counterexample_stop_zero_prices :
    (some (0:Rat)).isSome = true ∧
    buildOrder "STP" "BUY" 1 (some 0) (some 0) =
      Except.error "Stop price required for stop order" := by
  refine ⟨rfl, by decide⟩

/-- C6: for every batch that passes the empty check and the conflict check on
a connectable broker, the response carries exactly one result entry per input
order, numbered 1..n in input order — no order is dropped on any per-order
path. -/
theorem C6_one_result_per_order (ib : Broker) (orders : List OrderData)
    (hconn : ib.connectOk = true) (hne : orders ≠ [])
    (hvc : validateConflicts orders = none) :
    ∃ rs : List OrderResult,
      (tradingview_webhook ib orders).1.results = some rs ∧
      rs.length = orders.length ∧
      rs.map (fun r => r.order) = List.range' 1 orders.length := by
  have he : orders.isEmpty = false := by
    cases orders with
    | nil => exact absurd rfl hne
    | cons od rest => rfl
  rw [webhook_ok_eq ib orders he hvc hconn]
  exact ⟨(processBatch ib 0 orders).1, rfl, processBatch_fst_length ib orders 0,
    processBatch_map_order ib orders 0⟩

/-- C6 witness: a singleton batch yields exactly one result entry, numbered
1. -/
theorem C6_one_result_per_order_witness :
    ∃ rs : List OrderResult,
      (tradingview_webhook brokerPlain [orderPlainBuy]).1.results = some rs ∧
      rs.length = 1 ∧
      rs.map (fun r => r.order) = List.range' 1 1 :=
  C6_one_result_per_order brokerPlain [orderPlainBuy] rfl (by simp) (by decide)

/-- C8: an order whose order_type string is not one of the recognized values
is not rejected: the validation step replaces it by MKT while invoking the
warning-level logger (the Bool of `validateOrderType` records the
`logger.warning` call), and such an order is processed as a market order to a
successful result rather than a per-order error. -/
theorem C8_unknown_type_defaults_to_market :
    (∀ t : String, upper t ∉ valid_order_types → validateOrderType t = ("MKT", true)) ∧
    (processOrder brokerPlain 0 orderFooType).1.status = "success" ∧
    (processOrder brokerPlain 0 orderFooType).1.details =
      some (Details.successD "AAPL" "BUY" 1 "MKT" "Filled") ∧
    (processOrder brokerPlain 0 orderFooType).2 =
      [Event.qualifyCall (Stock "AAPL" "SMART" "USD"),
       Event.submit (Stock "AAPL" "SMART" "USD") (IBOrder.MarketOrder "BUY" 1)] := by
  refine ⟨?_, by decide, by decide, by decide⟩
  intro t ht
  unfold validateOrderType
  rw [if_neg ht]

/-- C8 witness: the unrecognized order type FOO is replaced by MKT with the
warning flag set. -/
theorem C8_unknown_type_defaults_to_market_witness :
    validateOrderType "FOO" = ("MKT", true) :=
  C8_unknown_type_defaults_to_market.1 "FOO" (by decide)

/-- The 500 response taken when connection setup throws (app.py lines
337-340): `ib` is still `None` in the `finally` block, so no broker event is
emitted at all. -/
theorem webhook_down_eq (ib : Broker) (orders : List OrderData)
    (hne : orders.isEmpty = false) (hvc : validateConflicts orders = none)
    (hc : ib.connectOk = false) :
    tradingview_webhook ib orders =
      ({ status := "error", message := "Trading connection error", http := 500 }, []) := by
  unfold tradingview_webhook
  rw [hne, hvc, hc]
  rfl

/-- C9 (amended): for every batch that passes validation, if connection setup
succeeds the connection is acquired exactly once before the per-order loop
and disconnect is invoked exactly once after it, regardless of how the
individual orders concluded; if connection setup itself throws, the request
fails with 500 and disconnect is invoked zero times, because there is no
session to release. -/
theorem C9_connect_disconnect_discipline (ib : Broker) (orders : List OrderData)
    (hne : orders ≠ []) (hvc : validateConflicts orders = none) :
    ((tradingview_webhook ib orders).2.count Event.connect =
      if ib.connectOk then 1 else 0) ∧
    ((tradingview_webhook ib orders).2.count Event.disconnect =
      if ib.connectOk then 1 else 0) ∧
    (ib.connectOk = true →
      (tradingview_webhook ib orders).2 =
        Event.connect :: (processBatch ib 0 orders).2 ++ [Event.disconnect]) ∧
    (ib.connectOk = false →
      (tradingview_webhook ib orders).1.http = 500 ∧
      (tradingview_webhook ib orders).2 = []) := by
  have he : orders.isEmpty = false := by
    cases orders with
    | nil => exact absurd rfl hne
    | cons od rest => rfl
  have hzc : (processBatch ib 0 orders).2.count Event.connect = 0 :=
    List.count_eq_zero.mpr
      (fun h => (processBatch_no_session ib orders 0 Event.connect h).1 rfl)
  have hzd : (processBatch ib 0 orders).2.count Event.disconnect = 0 :=
    List.count_eq_zero.mpr
      (fun h => (processBatch_no_session ib orders 0 Event.disconnect h).2 rfl)
  cases hc : ib.connectOk with
  | false =>
    rw [webhook_down_eq ib orders he hvc hc]
    exact ⟨rfl, rfl, fun h => Bool.noConfusion h, fun _ => ⟨rfl, rfl⟩⟩
  | true =>
    rw [webhook_ok_eq ib orders he hvc hc]
    dsimp only
    refine ⟨?_, ?_, fun _ => rfl, fun h => Bool.noConfusion h⟩
    · simp [List.count_cons, List.count_append, hzc]
    · simp [List.count_cons, List.count_append, hzd]

/-- C9 witness: on a healthy broker a singleton batch produces exactly one
connect and one disconnect event. -/
theorem C9_connect_disconnect_discipline_witness :
    ((tradingview_webhook brokerPlain [orderPlainBuy]).2.count Event.connect = 1) ∧
    ((tradingview_webhook brokerPlain [orderPlainBuy]).2.count Event.disconnect = 1) :=
  ⟨(C9_connect_disconnect_discipline brokerPlain [orderPlainBuy] (by simp) (by decide)).1,
   (C9_connect_disconnect_discipline brokerPlain [orderPlainBuy] (by simp) (by decide)).2.1⟩

/-- C9 counterexample: when connection setup fails, the handler returns 500
and the disconnect count is zero, not one — the claim's "disconnect is
invoked exactly once on every exit path, including when connection setup
threw" is false on that path. -/
theorem C9_counterexample_no_disconnect_on_connect_failure :
    (tradingview_webhook brokerDown [orderPlainBuy]).1.http = 500 ∧
    (tradingview_webhook brokerDown [orderPlainBuy]).2 = [] ∧
    (tradingview_webhook brokerDown [orderPlainBuy]).2.count Event.disconnect = 0 := by
  refine ⟨by decide, by decide, by decide⟩

/-- C10: for every valid, conflict-free batch on a connectable broker in
which no order reaches status success — including a batch in which every
order is skipped because its target is already met — the non-success entries
are all counted in failed_orders (failed = total), the batch status is
error, and the HTTP status is 400. -/
theorem C10_no_success_means_error_400 (ib : Broker) (orders : List OrderData)
    (hconn : ib.connectOk = true) (hne : orders ≠ [])
    (hvc : validateConflicts orders = none)
    (hnosucc : ∀ r ∈ (processBatch ib 0 orders).1, r.status ≠ "success") :
    (tradingview_webhook ib orders).1.status = "error" ∧
    (tradingview_webhook ib orders).1.http = 400 ∧
    (tradingview_webhook ib orders).1.successful_orders = some 0 ∧
    (tradingview_webhook ib orders).1.failed_orders = some orders.length := by
  have he : orders.isEmpty = false := by
    cases orders with
    | nil => exact absurd rfl hne
    | cons od rest => rfl
  have hf : ((processBatch ib 0 orders).1.filter (fun r => r.status == "success")).length = 0 := by
    rw [List.length_eq_zero, List.filter_eq_nil_iff]
    intro r hr
    simpa using hnosucc r hr
  rw [webhook_ok_eq ib orders he hvc hconn]
  dsimp only
  rw [hf, processBatch_fst_length]
  exact ⟨rfl, rfl, rfl, rfl⟩

/-- C10 witness: a batch whose single order is skipped (target already met)
is reported with successful 0, failed 1, status error, HTTP 400. -/
theorem C10_no_success_means_error_400_witness :
    (tradingview_webhook brokerPlain ordersAllSkip).1.status = "error" ∧
    (tradingview_webhook brokerPlain ordersAllSkip).1.http = 400 ∧
    (tradingview_webhook brokerPlain ordersAllSkip).1.successful_orders = some 0 ∧
    (tradingview_webhook brokerPlain ordersAllSkip).1.failed_orders = some 1 :=
  C10_no_success_means_error_400 brokerPlain ordersAllSkip rfl (by decide)
    (by decide) (by decide)
